import Mathlib

/-!
Verification development for the template zone-inference and structural-rewrite
engine of the export-docgen repository (src/template-engine.js).

The JavaScript source is shallowly embedded below:
  * pure helper functions (`colToRef`, `refToCol`, `escapeXml`, `isNumeric`)
    become Lean functions over `Nat`/`Int`/`String`;
  * the DOM-shaped worksheet is modelled structurally (`XRow`, `XCell`,
    `SheetXml`): the XML parse/serialize layer is out of scope per the spec
    and is represented by keeping the parsed structure itself;
  * the shared-string registry (`ssIndexMap`, `newSharedStrings`,
    `newRawSiElements`) becomes explicit state (`SSState`) threaded through
    the rewrite;
  * the zip container becomes a map from part names to part values.
JavaScript strings are modelled by Lean `String` (display lengths are counted
in characters rather than UTF-16 code units; all texts involved here are in
the Basic Multilingual Plane, where the two coincide).
-/

/-- Character is an ASCII uppercase letter, the class `[A-Z]` of the source's
regular expressions. -/
def isUpperAZ (c : Char) : Bool := 65 ≤ c.toNat && c.toNat ≤ 90

/-- Numeric value of a list of ASCII digits, most significant first. -/
def digitsToNat (l : List Char) : Nat :=
  l.foldl (fun a c => a * 10 + (c.toNat - 48)) 0

/-- Numeric value of a digit run as an `Int` (source: `parseInt(row)`). -/
def digitsToInt (l : List Char) : Int := Int.ofNat (digitsToNat l)

/-- Embedding of `colToRef` (template-engine.js lines 10-18), on the character
list of the produced string: `while (col > 0) { col--; ref = chr(65 + col%26)
+ ref; col = floor(col/26) }`. -/
def colToRefList : Nat → List Char
  | 0 => []
  | n + 1 => colToRefList (n / 26) ++ [Char.ofNat (65 + n % 26)]
decreasing_by
  exact Nat.lt_succ_of_le (Nat.div_le_self n 26)

/-- Embedding of `colToRef` returning a `String` as the source does. -/
def colToRef (col : Nat) : String := String.mk (colToRefList col)

/-- Embedding of `refToCol` (template-engine.js lines 20-28) on character
lists.  The regex `^([A-Z]+)` takes the leading run of uppercase letters; if
there is none the function returns 1; otherwise the letters are folded with
`col = col * 26 + (charCode - 64)`. -/
def refToColList (ref : List Char) : Nat :=
  let letters := ref.takeWhile isUpperAZ
  if letters.isEmpty then 1
  else letters.foldl (fun col ch => col * 26 + (ch.toNat - 64)) 0

/-- Embedding of `refToCol` on `String`. -/
def refToCol (ref : String) : Nat := refToColList ref.data

/-- Character code of the digit produced for base-26 position `m < 26`. -/
theorem charAZ_toNat (m : Nat) (hm : m < 26) :
    (Char.ofNat (65 + m)).toNat = 65 + m := by
  interval_cases m <;> decide

/-- Every character emitted by `colToRefList` is an uppercase letter. -/
theorem colToRefList_upper (n : Nat) :
    ∀ c ∈ colToRefList n, isUpperAZ c = true := by
  induction n using Nat.strong_induction_on with
  | _ n ih =>
    match n with
    | 0 => intro c hc; simp [colToRefList] at hc
    | Nat.succ m =>
      intro c hc
      rw [colToRefList] at hc
      rcases List.mem_append.mp hc with h1 | h2
      · exact ih (m / 26) (Nat.lt_succ_of_le (Nat.div_le_self m 26)) c h1
      · have hm : m % 26 < 26 := Nat.mod_lt m (by decide)
        have hval := charAZ_toNat (m % 26) hm
        simp only [List.mem_singleton] at h2
        subst h2
        simp [isUpperAZ, hval]
        omega

/-- Folding the `refToCol` step over the digits of `colToRefList n` recovers
`n` (bijective base-26 numeration). -/
theorem colToRefList_fold (n : Nat) :
    (colToRefList n).foldl (fun col ch => col * 26 + (ch.toNat - 64)) 0 = n := by
  induction n using Nat.strong_induction_on with
  | _ n ih =>
    match n with
    | 0 => simp [colToRefList]
    | Nat.succ m =>
      rw [colToRefList, List.foldl_append]
      have hrec := ih (m / 26) (Nat.lt_succ_of_le (Nat.div_le_self m 26))
      rw [hrec]
      have hm : m % 26 < 26 := Nat.mod_lt m (by decide)
      have hval := charAZ_toNat (m % 26) hm
      simp only [List.foldl_cons, List.foldl_nil, hval]
      omega

/-- A positive column produces at least one letter. -/
theorem colToRefList_ne_nil (n : Nat) (h : 1 ≤ n) : colToRefList n ≠ [] := by
  match n, h with
  | Nat.succ m, _ =>
    rw [colToRefList]
    simp

/-- A list all of whose elements satisfy the predicate is its own
`takeWhile`. -/
theorem takeWhile_of_all {α : Type} (p : α → Bool) :
    ∀ l : List α, (∀ c ∈ l, p c = true) → l.takeWhile p = l := by
  intro l
  induction l with
  | nil => intro _; rfl
  | cons a as ihl =>
    intro h
    have ha : p a = true := h a (List.mem_cons_self a as)
    have hrest := ihl fun c hc => h c (List.mem_cons_of_mem a hc)
    simp [List.takeWhile, ha, hrest]

/-- C9: for every column number n ≥ 1, converting it to column letters and
back is the identity: `refToCol (colToRef n) = n`. -/
theorem C9_thm (n : Nat) (h : 1 ≤ n) : refToCol (colToRef n) = n := by
  show refToColList (String.mk (colToRefList n)).data = n
  have hdata : (String.mk (colToRefList n)).data = colToRefList n := rfl
  rw [hdata, refToColList]
  have hall := takeWhile_of_all isUpperAZ (colToRefList n) (colToRefList_upper n)
  rw [hall]
  have hne : colToRefList n ≠ [] := colToRefList_ne_nil n h
  simp only [List.isEmpty_iff]
  rw [if_neg hne]
  exact colToRefList_fold n

/-- Witness for C9 at the concrete column 703 (letters AAA). -/
theorem C9_witness : refToCol (colToRef 703) = 703 := C9_thm 703 (by decide)

/-- Whitespace characters skipped by JavaScript number conversion and
`String.prototype.trim` (ASCII subset; the templates contain no exotic
Unicode spaces). -/
def jsWs (c : Char) : Bool :=
  c = ' ' || c = '\t' || c = '\n' || c = '\r' ||
  c.toNat = 11 || c.toNat = 12

/-- Trim leading and trailing JavaScript whitespace from a character list. -/
def jsTrimList (l : List Char) : List Char :=
  ((l.dropWhile jsWs).reverse.dropWhile jsWs).reverse

/-- Exponent suffix of a JavaScript decimal literal: either nothing, or
`(e|E)[+-]?digits` consuming the rest of the input. -/
def jsExpOk : List Char → Bool
  | [] => true
  | c :: r =>
    (c = 'e' || c = 'E') &&
    (let r' := match r with
               | '+' :: r2 => r2
               | '-' :: r2 => r2
               | _ => r
     let (d, rest) := r'.span Char.isDigit
     !d.isEmpty && rest.isEmpty)

/-- Unsigned JavaScript decimal literal: `digits [. digits] [exp]` or
`. digits [exp]`. -/
def jsDecimal (l : List Char) : Bool :=
  let (ip, r1) := l.span Char.isDigit
  if ip.isEmpty then
    match r1 with
    | '.' :: r2 =>
      let (fp, r3) := r2.span Char.isDigit
      !fp.isEmpty && jsExpOk r3
    | _ => false
  else
    match r1 with
    | '.' :: r2 =>
      let (_, r3) := r2.span Char.isDigit
      jsExpOk r3
    | _ => jsExpOk r1

/-- Radix-prefixed JavaScript numeric literal `0x/0o/0b...` (unsigned). -/
def jsRadixLit (l : List Char) : Bool :=
  match l with
  | '0' :: x :: r =>
    if x = 'x' || x = 'X' then
      let (h, rest) := r.span (fun c => c.isDigit ||
        (97 ≤ c.toNat && c.toNat ≤ 102) || (65 ≤ c.toNat && c.toNat ≤ 70))
      !h.isEmpty && rest.isEmpty
    else if x = 'o' || x = 'O' then
      let (h, rest) := r.span (fun c => 48 ≤ c.toNat && c.toNat ≤ 55)
      !h.isEmpty && rest.isEmpty
    else if x = 'b' || x = 'B' then
      let (h, rest) := r.span (fun c => c = '0' || c = '1')
      !h.isEmpty && rest.isEmpty
    else false
  | _ => false

/-- Unsigned literal accepted after an optional sign by `Number(...)`:
`Infinity` or a decimal literal. -/
def jsUnsignedDec (l : List Char) : Bool :=
  l = "Infinity".toList || jsDecimal l

/-- Full-string JavaScript `Number(...)` conversion succeeding (not NaN):
the trimmed string is empty (yields 0) or a signed decimal / Infinity /
radix literal. -/
def jsNumberNotNaN (s : String) : Bool :=
  let t := jsTrimList s.toList
  t.isEmpty ||
  (match t with
   | '+' :: r => jsUnsignedDec r
   | '-' :: r => jsUnsignedDec r
   | _ => jsUnsignedDec t || jsRadixLit t)

/-- JavaScript `parseFloat(...)` succeeding (not NaN): after leading
whitespace and an optional sign the input starts with a digit, a dot
followed by a digit, or `Infinity`. -/
def jsParseFloatNotNaN (s : String) : Bool :=
  let l := s.toList.dropWhile jsWs
  let l' := match l with
            | '+' :: r => r
            | '-' :: r => r
            | _ => l
  (match l' with
   | c :: _ => c.isDigit
   | [] => false) ||
  (match l' with
   | '.' :: d :: _ => d.isDigit
   | _ => false) ||
  (match l' with
   | 'I' :: 'n' :: 'f' :: 'i' :: 'n' :: 'i' :: 't' :: 'y' :: _ => true
   | _ => false)

/-- Embedding of `isNumeric` (template-engine.js lines 45-48):
`if (v === '' || v == null) return false; return !isNaN(v) &&
!isNaN(parseFloat(v))`. -/
def isNumeric (s : String) : Bool :=
  !(s = "") && jsNumberNotNaN s && jsParseFloatNotNaN s

/-- JavaScript `!isNaN(parseInt(s))`: after leading whitespace and an
optional sign the input starts with a decimal digit (a `0x` prefix also
starts with the digit 0, so this predicate covers it). -/
def jsParseIntOk (s : String) : Bool :=
  let l := s.toList.dropWhile jsWs
  let l' := match l with
            | '+' :: r => r
            | '-' :: r => r
            | _ => l
  match l' with
  | c :: _ => c.isDigit
  | [] => false

/-- Embedding of `escapeXml` (template-engine.js lines 35-43).  The source
performs sequential global replaces with `&` first, which is equivalent to
this character-wise expansion. -/
def escapeXml (s : String) : String :=
  String.join (s.toList.map (fun c =>
    if c = '&' then "&amp;"
    else if c = '<' then "&lt;"
    else if c = '>' then "&gt;"
    else if c.toNat = 34 then "&quot;"
    else if c.toNat = 39 then "&apos;"
    else String.singleton c))

/-- Shared-string registry state of `generateFromTemplate`
(template-engine.js lines 469-490): the growing `newSharedStrings` array of
display texts, the parallel `newRawSiElements` array of raw `si` XML, and
the `ssIndexMap` object mapping a text to the index it resolves to. -/
structure SSState where
  strings : List String
  rawSi : List String
  idxMap : String → Option Nat

/-- Spreadsheet XML main namespace URI (constant `XLSX_NS`). -/
def xlsxNs : String := "http://schemas.openxmlformats.org/spreadsheetml/2006/main"

/-- Embedding of `getOrAddSharedString` (template-engine.js lines 473-487).
Consults the index map, then `indexOf` over the current string list, and
otherwise appends a new plain-text `si` element. -/
def getOrAddSS (ss : SSState) (text : String) : Nat × SSState :=
  match ss.idxMap text with
  | some i => (i, ss)
  | none =>
    match ss.strings.indexOf? text with
    | some i =>
      (i, { ss with idxMap := fun k => if k = text then some i else ss.idxMap k })
    | none =>
      let i := ss.strings.length
      (i, { strings := ss.strings ++ [text],
            rawSi := ss.rawSi ++
              ["<si xmlns=\"" ++ xlsxNs ++ "\"><t>" ++ escapeXml text ++ "</t></si>"],
            idxMap := fun k => if k = text then some i else ss.idxMap k })

/-- Embedding of the pre-indexing loop `origSharedStrings.forEach((s, i) =>
ssIndexMap[s] = i)` (template-engine.js line 490); later assignments
overwrite earlier ones, so a duplicated text maps to its last index. -/
def preIndexMap (l : List String) : String → Option Nat :=
  l.enum.foldl (fun m si => fun k => if k = si.2 then some si.1 else m k)
    (fun _ => none)

/-- Anchored match of the regex `([A-Z]+)(\d+):([A-Z]+)(\d+)` at the head of
the input: maximal letter run, maximal digit run, a colon, and again.
Returns the four captured groups and the rest of the input. -/
def matchRangeTok (l : List Char) :
    Option (List Char × List Char × List Char × List Char × List Char) :=
  let ls1 := l.takeWhile isUpperAZ
  let t1 := l.dropWhile isUpperAZ
  if ls1.isEmpty then none
  else
    let ds1 := t1.takeWhile Char.isDigit
    let t2 := t1.dropWhile Char.isDigit
    if ds1.isEmpty then none
    else
      match t2 with
      | c :: t3 =>
        if c = ':' then
          let ls2 := t3.takeWhile isUpperAZ
          let t4 := t3.dropWhile isUpperAZ
          if ls2.isEmpty then none
          else
            let ds2 := t4.takeWhile Char.isDigit
            let t5 := t4.dropWhile Char.isDigit
            if ds2.isEmpty then none else some (ls1, ds1, ls2, ds2, t5)
        else none
      | [] => none

/-- Dropping a matched run never lengthens a list. -/
theorem dropWhile_le {p : Char → Bool} (l : List Char) :
    (l.dropWhile p).length ≤ l.length := by
  have hsplit : l.takeWhile p ++ l.dropWhile p = l :=
    List.takeWhile_append_dropWhile p l
  have hlen : (l.takeWhile p).length + (l.dropWhile p).length = l.length := by
    rw [← List.length_append, hsplit]
  omega

/-- Dropping a non-empty matched run strictly shortens a list. -/
theorem dropWhile_lt {p : Char → Bool} (l : List Char)
    (h : l.takeWhile p ≠ []) : (l.dropWhile p).length < l.length := by
  have hsplit : l.takeWhile p ++ l.dropWhile p = l :=
    List.takeWhile_append_dropWhile p l
  have hlen : (l.takeWhile p).length + (l.dropWhile p).length = l.length := by
    rw [← List.length_append, hsplit]
  have hpos : 0 < (l.takeWhile p).length := List.length_pos.mpr h
  omega

/-- A successful range-token match leaves a strictly shorter remainder. -/
theorem matchRangeTok_shrink (l ls1 ds1 ls2 ds2 t5 : List Char)
    (h : matchRangeTok l = some (ls1, ds1, ls2, ds2, t5)) :
    t5.length < l.length := by
  simp only [matchRangeTok] at h
  by_cases h1 : (l.takeWhile isUpperAZ).isEmpty
  · rw [if_pos h1] at h; exact absurd h (by simp)
  · rw [if_neg h1] at h
    by_cases h2 : ((l.dropWhile isUpperAZ).takeWhile Char.isDigit).isEmpty
    · rw [if_pos h2] at h; exact absurd h (by simp)
    · rw [if_neg h2] at h
      cases heq : (l.dropWhile isUpperAZ).dropWhile Char.isDigit with
      | nil => rw [heq] at h; exact absurd h (by simp)
      | cons c t3 =>
        rw [heq] at h
        simp only at h
        by_cases hc : c = ':'
        · rw [if_pos hc] at h
          by_cases h3 : (t3.takeWhile isUpperAZ).isEmpty
          · rw [if_pos h3] at h; exact absurd h (by simp)
          · rw [if_neg h3] at h
            by_cases h4 : ((t3.dropWhile isUpperAZ).takeWhile Char.isDigit).isEmpty
            · rw [if_pos h4] at h; exact absurd h (by simp)
            · rw [if_neg h4] at h
              have h5 : t5 = (t3.dropWhile isUpperAZ).dropWhile Char.isDigit := by
                have := (Option.some.injEq _ _).mp h
                exact (congrArg (fun q => q.2.2.2.2) this).symm
              have l1 : ((t3.dropWhile isUpperAZ).dropWhile Char.isDigit).length ≤
                  (t3.dropWhile isUpperAZ).length := dropWhile_le _
              have l2 : (t3.dropWhile isUpperAZ).length ≤ t3.length := dropWhile_le _
              have l3 : t3.length <
                  ((l.dropWhile isUpperAZ).dropWhile Char.isDigit).length := by
                rw [heq]; simp
              have l4 : ((l.dropWhile isUpperAZ).dropWhile Char.isDigit).length ≤
                  (l.dropWhile isUpperAZ).length := dropWhile_le _
              have l5 : (l.dropWhile isUpperAZ).length ≤ l.length := dropWhile_le _
              rw [h5]
              omega
        · rw [if_neg hc] at h; exact absurd h (by simp)

/-- Replacement callback of the first regex pass of
`updateFormulaRangesGeneric` (template-engine.js lines 759-773): a range
whose corners fall around the original data area is re-pointed, other
ranges are left as matched. -/
def rangeReplacement (origDataStart origDataEnd newDataEnd origFooterStart
    newFooterStart : Int) (ls1 ds1 ls2 ds2 : List Char) : List Char :=
  let r1 := digitsToInt ds1
  let r2 := digitsToInt ds2
  if r1 ≥ origDataStart ∧ r1 ≤ origDataEnd + 20 ∧ r2 ≥ origDataStart then
    let newR1 := if r1 ≥ origFooterStart then newFooterStart + (r1 - origFooterStart) else r1
    let newR2 := if r2 ≥ origFooterStart then newFooterStart + (r2 - origFooterStart)
                 else if r2 ≤ origDataEnd then newDataEnd else newDataEnd
    ls1 ++ (toString newR1).toList ++ [':'] ++ ls2 ++ (toString newR2).toList
  else ls1 ++ ds1 ++ [':'] ++ ls2 ++ ds2

/-- First global-replace pass over the formula text: scan left to right,
rewriting every non-overlapping occurrence of `([A-Z]+)(\d+):([A-Z]+)(\d+)`
through `rangeReplacement` and copying other characters unchanged.  The
recursion is fuelled by the remaining length; by `matchRangeTok_shrink`
every step consumes at least one character, so fuel equal to the input
length (supplied by `rangePass`) never runs out. -/
def rangeLoop (origDataStart origDataEnd newDataEnd origFooterStart
    newFooterStart : Int) : Nat → List Char → List Char
  | _, [] => []
  | 0, l => l
  | fuel + 1, c :: rest =>
    match matchRangeTok (c :: rest) with
    | some (ls1, ds1, ls2, ds2, t5) =>
      rangeReplacement origDataStart origDataEnd newDataEnd origFooterStart
        newFooterStart ls1 ds1 ls2 ds2 ++
      rangeLoop origDataStart origDataEnd newDataEnd origFooterStart
        newFooterStart fuel t5
    | none =>
      c :: rangeLoop origDataStart origDataEnd newDataEnd origFooterStart
        newFooterStart fuel rest

/-- The first pass at full fuel. -/
def rangePass (origDataStart origDataEnd newDataEnd origFooterStart
    newFooterStart : Int) (l : List Char) : List Char :=
  rangeLoop origDataStart origDataEnd newDataEnd origFooterStart
    newFooterStart l.length l

/-- Anchored match of `([A-Z]+)(\d+)(?![:\d])` at the head of the input.
The digit run is maximal, so the lookahead can only be defeated by a
following colon (shrinking the digit run always exposes a digit, which the
lookahead also rejects). -/
def matchCellTok (l : List Char) :
    Option (List Char × List Char × List Char) :=
  let ls := l.takeWhile isUpperAZ
  let t1 := l.dropWhile isUpperAZ
  if ls.isEmpty then none
  else
    let ds := t1.takeWhile Char.isDigit
    let t2 := t1.dropWhile Char.isDigit
    if ds.isEmpty then none
    else
      match t2 with
      | c :: _ => if c = ':' then none else some (ls, ds, t2)
      | [] => some (ls, ds, t2)

/-- A successful cell-token match leaves a strictly shorter remainder. -/
theorem matchCellTok_shrink (l ls ds t2 : List Char)
    (h : matchCellTok l = some (ls, ds, t2)) : t2.length < l.length := by
  simp only [matchCellTok] at h
  by_cases h1 : (l.takeWhile isUpperAZ).isEmpty
  · rw [if_pos h1] at h; exact absurd h (by simp)
  · rw [if_neg h1] at h
    by_cases hds : ((l.dropWhile isUpperAZ).takeWhile Char.isDigit).isEmpty
    · rw [if_pos hds] at h; exact absurd h (by simp)
    · rw [if_neg hds] at h
      have hkey : t2 = (l.dropWhile isUpperAZ).dropWhile Char.isDigit := by
        cases heq : (l.dropWhile isUpperAZ).dropWhile Char.isDigit with
        | nil =>
          rw [heq] at h
          simp only at h
          exact (congrArg (fun q => q.2.2) ((Option.some.injEq _ _).mp h)).symm
        | cons c t3 =>
          rw [heq] at h
          simp only at h
          by_cases hc : c = ':'
          · rw [if_pos hc] at h; exact absurd h (by simp)
          · rw [if_neg hc] at h
            exact (congrArg (fun q => q.2.2) ((Option.some.injEq _ _).mp h)).symm
      have l1 : ((l.dropWhile isUpperAZ).dropWhile Char.isDigit).length <
          (l.dropWhile isUpperAZ).length := by
        apply dropWhile_lt
        intro hcon
        rw [hcon] at hds
        simp at hds
      have l2 : (l.dropWhile isUpperAZ).length ≤ l.length := dropWhile_le _
      rw [hkey]
      omega

/-- Replacement callback of the second regex pass (template-engine.js lines
776-785): a single cell reference at or beyond the original footer start is
shifted to the new footer position. -/
def cellReplacement (origFooterStart newFooterStart : Int)
    (ls ds : List Char) : List Char :=
  let r := digitsToInt ds
  if r ≥ origFooterStart then
    ls ++ (toString (newFooterStart + (r - origFooterStart))).toList
  else ls ++ ds

/-- Second global-replace pass over the formula text, fuelled like
`rangeLoop` (sufficiency by `matchCellTok_shrink`). -/
def cellLoop (origFooterStart newFooterStart : Int) : Nat → List Char → List Char
  | _, [] => []
  | 0, l => l
  | fuel + 1, c :: rest =>
    match matchCellTok (c :: rest) with
    | some (ls, ds, t2) =>
      cellReplacement origFooterStart newFooterStart ls ds ++
      cellLoop origFooterStart newFooterStart fuel t2
    | none => c :: cellLoop origFooterStart newFooterStart fuel rest

/-- The second pass at full fuel. -/
def cellPass (origFooterStart newFooterStart : Int) (l : List Char) :
    List Char :=
  cellLoop origFooterStart newFooterStart l.length l

/-- Embedding of `updateFormulaRangesGeneric` (template-engine.js lines
757-788): the range pass followed by the single-cell pass, both operating on
the formula text.  The `newDataStart` parameter is accepted and ignored
exactly as in the source. -/
def updateFormulaRangesGeneric (formula : String) (origDataStart origDataEnd
    _newDataStart newDataEnd origFooterStart newFooterStart : Int) : String :=
  String.mk (cellPass origFooterStart newFooterStart
    (rangePass origDataStart origDataEnd newDataEnd origFooterStart
      newFooterStart formula.toList))

/-- Two-corner range `A1:B2` with parsed corners, used for merges, the
auto-filter extent and conditional-formatting scopes. -/
structure MergeRef where
  c1 : List Char
  r1 : Int
  c2 : List Char
  r2 : Int
deriving DecidableEq, Repr

/-- Per-range body of the loop of `updateMergeCells` (template-engine.js
lines 801-824): `none` models removal of the mergeCell node. -/
def updateMergeOne (dataStart origDataEnd origFooterStart rowShift : Int)
    (m : MergeRef) : Option MergeRef :=
  if m.r1 ≥ dataStart ∧ m.r2 ≤ origDataEnd then none
  else if m.r1 ≥ origFooterStart then
    some { m with r1 := m.r1 + rowShift, r2 := m.r2 + rowShift }
  else if m.r1 < dataStart ∧ m.r2 ≥ origFooterStart then
    some { m with r2 := m.r2 + rowShift }
  else some m

/-- Embedding of `updateMergeCells` (template-engine.js lines 793-835) on the
parsed merge list: each range is adjusted or removed, and an emptied
`mergeCells` element is deleted altogether.  The `newDataEnd` argument is
accepted and unused exactly as in the source. -/
def updateMergeCells (merges : Option (List MergeRef)) (dataStart origDataEnd
    _newDataEnd origFooterStart rowShift : Int) : Option (List MergeRef) :=
  match merges with
  | none => none
  | some l =>
    let l' := l.filterMap (updateMergeOne dataStart origDataEnd origFooterStart rowShift)
    if l'.isEmpty then none else some l'

/-- Embedding of `adjustRangeRef` (template-engine.js lines 840-851) on a
parsed two-corner range: the end row is extended when it reaches the
original data end. -/
def adjustRange (origDataEnd rowShift : Int) (m : MergeRef) : MergeRef :=
  if m.r2 ≥ origDataEnd then { m with r2 := m.r2 + rowShift } else m

/-- Cell of a worksheet row as held in the DOM: the `r` attribute is kept as
its column and row components (`colPart + rowNum` in the source's rewrites),
plus the `s`, `t`, `v` and `f` contents. -/
structure XCell where
  colRef : List Char
  rowRef : Int
  s : String
  t : Option String
  v : Option String
  f : Option String
deriving DecidableEq, Repr

/-- Worksheet row as held in the DOM: `r`, `ht`, `customHeight` attributes
and the child cells in document order. -/
structure XRow where
  r : Int
  ht : Option String
  customHeight : Bool
  cells : List XCell
deriving DecidableEq, Repr

/-- Structured view of the worksheet part.  `sheetData = none` models a
worksheet XML without a `sheetData` element; the other fields model the
elements the rewrite touches (`mergeCells`, `dimension`, `autoFilter`,
`conditionalFormatting` scopes).  Elements the rewrite never visits
(drawings, comments, print settings, ...) ride along inside `rest`. -/
structure SheetXml where
  sheetData : Option (List XRow)
  mergeCells : Option (List MergeRef)
  dimension : Option String
  autoFilter : Option MergeRef
  condFmtScopes : List (List MergeRef)
  rest : String
deriving DecidableEq, Repr

/-- One sampled style-pattern cell (`{col, style}` of the entries built at
template-engine.js lines 386-392; the `type`/`hasFormula`/`formulaPattern`
fields recorded there are never read by the rewrite and are omitted). -/
structure PatCell where
  col : Nat
  style : String
deriving DecidableEq, Repr

/-- One sampled example-row style pattern (template-engine.js line 393). -/
structure StylePattern where
  rowNum : Int
  ht : Option String
  pattern : List PatCell
deriving DecidableEq, Repr

/-- The fields of the `analyzeSheet` result consumed by
`rebuildSheetSurgical`: the caption-row column count, the data zone bounds,
the footer rows' numbers (in sheet order), the sampled style patterns and the
maximum column. -/
structure Analysis where
  colCount : Nat
  dataStartRowNum : Int
  dataEndRowNum : Int
  footerRowNums : List Int
  stylePatterns : List StylePattern
  maxCol : Nat
deriving Repr

/-- Embedding of `updateCellValue` (template-engine.js lines 728-752): a
numeric-looking value becomes a typed number cell, anything else a
shared-string reference. -/
def updateCellValue (cell : XCell) (newValue : String) (ss : SSState) :
    XCell × SSState :=
  if isNumeric newValue then
    ({ cell with t := none, v := some newValue }, ss)
  else
    let ga := getOrAddSS ss newValue
    ({ cell with t := some "s", v := some (toString ga.1) }, ga.2)

/-- Header-field updates keyed by the cell's `r` attribute, modelled as its
(column letters, row number) components. -/
def HeaderUpdates := List ((List Char × Int) × String)

/-- Lookup of `headerFieldUpdates[cellRef]`. -/
def lookupUpdate (hfu : HeaderUpdates) (key : List Char × Int) : Option String :=
  match hfu.find? (fun e => e.1 = key) with
  | some e => some e.2
  | none => none

/-- Inner cell loop of Step 1 of `rebuildSheetSurgical` (template-engine.js
lines 549-556). -/
def updateRowCells (cells : List XCell) (hfu : HeaderUpdates) (ss : SSState) :
    List XCell × SSState :=
  match cells with
  | [] => ([], ss)
  | c :: rest =>
    match lookupUpdate hfu (c.colRef, c.rowRef) with
    | some nv =>
      let uc := updateCellValue c nv ss
      let ur := updateRowCells rest hfu uc.2
      (uc.1 :: ur.1, ur.2)
    | none =>
      let ur := updateRowCells rest hfu ss
      (c :: ur.1, ur.2)

/-- Step 1 of `rebuildSheetSurgical` (template-engine.js lines 544-557):
walk the rows in document order, stopping at the first row whose number
reaches the data zone, applying the field updates to earlier rows. -/
def applyHeaderUpdates (rows : List XRow) (dataStart : Int)
    (hfu : HeaderUpdates) (ss : SSState) : List XRow × SSState :=
  match rows with
  | [] => ([], ss)
  | r :: rest =>
    if r.r ≥ dataStart then (r :: rest, ss)
    else
      let uc := updateRowCells r.cells hfu ss
      let ur := applyHeaderUpdates rest dataStart hfu uc.2
      ({ r with cells := uc.1 } :: ur.1, ur.2)

/-- Value drawn from `newDataRows[i][c]` (template-engine.js line 593):
`undefined`/`null` (here `none`, or a missing index) yields the empty
string, anything else its string form. -/
def cellValueAt (dataRow : List (Option String)) (c : Nat) : String :=
  match dataRow.get? c with
  | some (some v) => v
  | some none => ""
  | none => ""

/-- Cell constructed for a new data row (template-engine.js lines 588-613). -/
def buildNewCell (pattern : StylePattern) (colNum : Nat) (rowNum : Int)
    (cellValue : String) (ss : SSState) : XCell × SSState :=
  let patternCell := pattern.pattern.find? (fun p => p.col = colNum)
  let styleIdx := match patternCell with
                  | some p => p.style
                  | none => "0"
  if cellValue = "" then
    ({ colRef := colToRefList colNum, rowRef := rowNum, s := styleIdx,
       t := none, v := none, f := none }, ss)
  else if isNumeric cellValue then
    ({ colRef := colToRefList colNum, rowRef := rowNum, s := styleIdx,
       t := none, v := some cellValue, f := none }, ss)
  else
    let ga := getOrAddSS ss cellValue
    ({ colRef := colToRefList colNum, rowRef := rowNum, s := styleIdx,
       t := some "s", v := some (toString ga.1), f := none }, ga.2)

/-- Column loop building the cells of one new data row (the `for c` loop of
template-engine.js lines 588-614), over columns `cols` (`c+1` for
`c = 0 .. colCount-1`). -/
def buildNewCells (pattern : StylePattern) (cols : List Nat) (rowNum : Int)
    (dataRow : List (Option String)) (ss : SSState) : List XCell × SSState :=
  match cols with
  | [] => ([], ss)
  | colNum :: rest =>
    let bc := buildNewCell pattern colNum rowNum
      (cellValueAt dataRow (colNum - 1)) ss
    let br := buildNewCells pattern rest rowNum dataRow bc.2
    (bc.1 :: br.1, br.2)

/-- Row loop of Step 3 of `rebuildSheetSurgical` (template-engine.js lines
576-618): the style pattern cycles with period `patternCycleLen`, row `i`
gets number `dataStart + i`, and `ht`/`customHeight` follow the pattern
row's height when it is truthy. -/
def buildNewRows (newDataRows : List (List (Option String)))
    (stylePatterns : List StylePattern) (patternCycleLen : Nat)
    (colCount : Nat) (i : Nat) (currentRowNum : Int) (ss : SSState) :
    List XRow × SSState :=
  match newDataRows with
  | [] => ([], ss)
  | dataRow :: rest =>
    let patternIdx := i % patternCycleLen
    let pattern := (stylePatterns.get?
      (min patternIdx (stylePatterns.length - 1))).getD
      { rowNum := 0, ht := none, pattern := [] }
    let htTruthy := match pattern.ht with
                    | some hstr => hstr ≠ ""
                    | none => false
    let bc := buildNewCells pattern
      ((List.range colCount).map (· + 1)) currentRowNum dataRow ss
    let row : XRow :=
      { r := currentRowNum,
        ht := if htTruthy then pattern.ht else none,
        customHeight := htTruthy,
        cells := bc.1 }
    let br := buildNewRows rest stylePatterns patternCycleLen
      colCount (i + 1) (currentRowNum + 1) bc.2
    (row :: br.1, br.2)

/-- Step 4 of `rebuildSheetSurgical` (template-engine.js lines 624-642):
insert the new rows immediately before the first remaining row whose number
reaches the original footer start, or append them at the end. -/
def insertRowsBefore (rows newRows : List XRow) (footerStart : Int) :
    List XRow :=
  match rows with
  | [] => newRows
  | r :: rest =>
    if r.r ≥ footerStart then newRows ++ r :: rest
    else r :: insertRowsBefore rest newRows footerStart

/-- Step 5 of `rebuildSheetSurgical` (template-engine.js lines 645-673),
applied to one row of the re-fetched row list: every row at or after the
original footer start is renumbered by `rowShift`, its cell references
follow, and non-empty formula texts are rewritten. -/
def shiftFooterRow (origFooterStart rowShift dataStartRowNum origDataEndRowNum
    newDataEnd : Int) (row : XRow) : XRow :=
  if row.r ≥ origFooterStart then
    let newRn := row.r + rowShift
    { row with
      r := newRn,
      cells := row.cells.map (fun c =>
        { c with
          rowRef := newRn,
          f := c.f.map (fun ftext =>
            if ftext = "" then ftext
            else updateFormulaRangesGeneric ftext dataStartRowNum
              origDataEndRowNum dataStartRowNum newDataEnd
              origFooterStart (origFooterStart + rowShift)) }) }
  else row

/-- Embedding of `rebuildSheetSurgical` (template-engine.js lines 529-723).
Returns the rewritten worksheet and the final shared-string state; when the
worksheet has no `sheetData` or the analysis sampled no style patterns, the
original worksheet is returned unchanged (the source returns `origXml`). -/
def rebuildSheetSurgical (ws : SheetXml) (an : Analysis)
    (newDataRows : List (List (Option String))) (ss : SSState)
    (hfu : HeaderUpdates) : SheetXml × SSState :=
  match ws.sheetData with
  | none => (ws, ss)
  | some rows0 =>
    if an.stylePatterns.isEmpty then (ws, ss)
    else
      let colCount := an.colCount
      let dataStartRowNum := an.dataStartRowNum
      let origDataEndRowNum := an.dataEndRowNum
      let origFooterStartRowNum :=
        (an.footerRowNums.head?).getD (origDataEndRowNum + 1)
      -- Step 1: header field updates (skipped when the map is empty)
      let step1 :=
        if hfu.isEmpty then (rows0, ss)
        else applyHeaderUpdates rows0 dataStartRowNum hfu ss
      -- Step 2: remove the data zone rows
      let rows2 := step1.1.filter (fun r =>
        !(r.r ≥ dataStartRowNum && r.r ≤ origDataEndRowNum))
      -- Step 3: build the new data rows
      let patternCycleLen := if an.stylePatterns.length ≥ 2 then 2 else 1
      let built := buildNewRows newDataRows an.stylePatterns
        patternCycleLen colCount 0 dataStartRowNum step1.2
      let newDataEnd := dataStartRowNum + Int.ofNat newDataRows.length - 1
      let rowShift := newDataEnd - origDataEndRowNum
      -- Step 4: insert before the first footer row
      let rows3 := insertRowsBefore rows2 built.1 origFooterStartRowNum
      -- Step 5: renumber rows at or after the footer start
      let rows4 :=
        if rowShift ≠ 0 then
          rows3.map (shiftFooterRow origFooterStartRowNum rowShift
            dataStartRowNum origDataEndRowNum newDataEnd)
        else rows3
      -- Step 6: merge cells
      let merges' := updateMergeCells ws.mergeCells dataStartRowNum
        origDataEndRowNum newDataEnd origFooterStartRowNum rowShift
      -- Step 7: dimension ref
      let dimension' := ws.dimension.map (fun _ =>
        let lastRow :=
          match an.footerRowNums.getLast? with
          | some lastFooter => lastFooter + rowShift
          | none => newDataEnd
        let lastCol := colToRef (if an.maxCol = 0 then 8 else an.maxCol)
        "A1:" ++ lastCol ++ toString lastRow)
      -- Step 8: autoFilter range
      let autoFilter' := ws.autoFilter.map (fun af =>
        if af.r2 ≥ origDataEndRowNum then { af with r2 := af.r2 + rowShift }
        else af)
      -- Step 9: conditional formatting scopes
      let condFmt' := ws.condFmtScopes.map (fun sq =>
        sq.map (adjustRange origDataEndRowNum rowShift))
      ({ sheetData := some rows4,
         mergeCells := merges',
         dimension := dimension',
         autoFilter := autoFilter',
         condFmtScopes := condFmt',
         rest := ws.rest }, built.2)

/-- Value of one part of the zip container.  The worksheet and shared-string
parts the engine rewrites are held structurally; every other part is an
opaque text.  Byte-identity of a part corresponds to equality of its
`PartVal`. -/
inductive PartVal where
  | sheet (ws : SheetXml)
  | sst (entries : List String)
  | text (s : String)
deriving DecidableEq, Repr

/-- Write (or overwrite) one named part, as `newZip.file(name, content)`. -/
def setPart (parts : String → Option PartVal) (name : String)
    (content : PartVal) : String → Option PartVal :=
  fun p => if p = name then some content else parts p

/-- Embedding of `buildSharedStringsXmlPreserved` (template-engine.js lines
856-868) at the structural level: the part carries the raw `si` entries in
order.  The XML envelope (`sst` header, `count` attributes) and the
namespace-attribute cleanup applied to each serialized entry belong to the
out-of-scope serialization layer and do not alter entry order, count or
display text. -/
def buildSharedStringsXmlPreserved (rawSi : List String) : PartVal :=
  PartVal.sst rawSi

/-- Scan the inside of a `sheet` tag (stopping at `>`) for `name="`,
accumulating the consumed characters; mirrors the `[^>]*name="` portion of
the workbook regex (template-engine.js lines 506-509). -/
def sheetTagScan (acc : List Char) : List Char → Option (List Char × List Char)
  | [] => none
  | c :: rest =>
    if c = '>' then none
    else if "name=\"".toList.isPrefixOf (c :: rest) then
      some (acc ++ "name=\"".toList, (c :: rest).drop 6)
    else sheetTagScan (acc ++ [c]) rest

/-- Find the first `<sheet ... name="` occurrence, returning the text up to
and including `name="` and the text after it. -/
def splitAtSheetName : List Char → Option (List Char × List Char)
  | [] => none
  | c :: rest =>
    if "<sheet".toList.isPrefixOf (c :: rest) then
      match sheetTagScan [] ((c :: rest).drop 6) with
      | some (mid, after) => some ("<sheet".toList ++ mid, after)
      | none =>
        match splitAtSheetName rest with
        | some (b, a) => some (c :: b, a)
        | none => none
    else
      match splitAtSheetName rest with
      | some (b, a) => some (c :: b, a)
      | none => none

/-- Embedding of the workbook sheet-name substitution of
`generateFromTemplate` (template-engine.js lines 505-510): replace the first
sheet element's name-attribute value with the escaped new name; when the
pattern does not occur the text is unchanged. -/
def updateWorkbookXml (wb : String) (sheetName : String) : String :=
  match splitAtSheetName wb.toList with
  | none => wb
  | some (before, after) =>
    let value := after.takeWhile (fun c => c.toNat ≠ 34)
    let rest' := after.drop value.length
    match rest' with
    | [] => wb
    | _ => String.mk (before ++ (escapeXml sheetName).toList ++ rest')

/-- Options object of `generateFromTemplate` (template-engine.js lines
456-460); `headerFieldUpdates` defaults to the empty map. -/
structure GenOptions where
  rows : List (List (Option String))
  sheetName : Option String
  headerFieldUpdates : HeaderUpdates

/-- Result of `analyzeTemplate` as consumed by `generateFromTemplate`: the
original container parts, the path of the analyzed first sheet, the zone
analysis, and the parsed shared strings (display texts and raw `si`
elements, in table order). -/
structure TemplateData where
  parts : String → Option PartVal
  firstSheetPath : String
  analysis : Analysis
  sharedStrings : List String
  rawSiElements : List String

/-- Path of the shared-string part. -/
def ssPathName : String := "xl/sharedStrings.xml"

/-- Path of the workbook part. -/
def wbPathName : String := "xl/workbook.xml"

/-- Initial shared-string state of one generation run: the original strings
and raw elements, with the index map pre-populated from the original table
(template-engine.js lines 469-471 and 490). -/
def initSSState (td : TemplateData) : SSState :=
  { strings := td.sharedStrings,
    rawSi := td.rawSiElements,
    idxMap := preIndexMap td.sharedStrings }

/-- Embedding of `generateFromTemplate` (template-engine.js lines 455-522).
The zip clone (`generateAsync` + `loadAsync`, lines 465-466) preserves every
part's content and is the identity on the part map.  The function rewrites
the analyzed worksheet part and the shared-string part, and, when a sheet
name is supplied, the workbook part; a missing or non-worksheet first-sheet
part or a missing workbook part is an archive error, modelled as `none`. -/
def generateFromTemplate (td : TemplateData) (g : GenOptions) :
    Option (String → Option PartVal) :=
  match td.parts td.firstSheetPath with
  | some (PartVal.sheet ws) =>
    let res := rebuildSheetSurgical ws td.analysis g.rows (initSSState td)
      g.headerFieldUpdates
    let z1 := setPart td.parts td.firstSheetPath (PartVal.sheet res.1)
    let z2 := setPart z1 ssPathName (buildSharedStringsXmlPreserved res.2.rawSi)
    match g.sheetName with
    | none => some z2
    | some nm =>
      match z2 wbPathName with
      | some (PartVal.text wb) =>
        some (setPart z2 wbPathName (PartVal.text (updateWorkbookXml wb nm)))
      | _ => none
  | _ => none

/-- Cell of the analysis phase (template-engine.js lines 276-280): the raw
`v` text and the display value (the raw value resolved through the
shared-string table for `t="s"` cells).  The `ref`/`s`/`t`/`col`/`formula`
fields recorded there are not consumed by the caption-row and data-start
scans embedded here. -/
structure ACell where
  value : String
  displayValue : String
deriving DecidableEq, Repr

/-- Row of the analysis phase (template-engine.js lines 282-288). -/
structure ARow where
  rowNum : Int
  cells : List ACell
deriving DecidableEq, Repr

/-- Display texts of a row's cells (`texts` at template-engine.js line 298). -/
def rowTexts (r : ARow) : List String := r.cells.map (·.displayValue)

/-- Qualification test of the caption-row scan (template-engine.js lines
295-315): at least 3 cells, every display text under 30 characters, at
least 3 non-empty texts, a following row exists and has at least one cell,
and some text is exactly one of the sequence-number markers. -/
def captionQualifies (rows : List ARow) (i : Nat) : Bool :=
  match rows.get? i with
  | none => false
  | some r =>
    let texts := rowTexts r
    decide (3 ≤ r.cells.length) &&
    texts.all (fun t => decide (t.length < 30)) &&
    decide (3 ≤ (texts.filter (fun t => decide (0 < t.length))).length) &&
    (match rows.get? (i + 1) with
     | some nr => decide (0 < nr.cells.length)
     | none => false) &&
    texts.any (fun t =>
      t = "No." || t = "No" || t = "STT" || t = "#" || t = "番号")

/-- Index scan with break: starting at position `i` with `fuel` positions
left to inspect, return the first index satisfying `q`.  With
`fuel = rows.length` and `i = 0` this is exactly the source's
`for (i = 0; i < rows.length; i++) ... break` loop (a position at or past
the row count never satisfies the qualification test). -/
def scanLoop (q : Nat → Bool) : Nat → Nat → Option Nat
  | 0, _ => none
  | fuel + 1, i => if q i then some i else scanLoop q fuel (i + 1)

/-- The caption-row search over the whole sheet (no row cap in the source,
template-engine.js lines 295-315). -/
def findCaptionIdx (rows : List ARow) : Option Nat :=
  scanLoop (captionQualifies rows) rows.length 0

/-- Fallback scan (template-engine.js lines 318-327): the first row with the
strictly greatest cell count among the first `min(rows.length, 20)` rows;
rows with no cells never win. -/
def fallbackLoop (rows : List ARow) : Nat → Nat → Nat → Option Nat → Option Nat
  | 0, _, _, best => best
  | fuel + 1, i, maxCells, best =>
    let len := ((rows.get? i).map (fun r => r.cells.length)).getD 0
    if maxCells < len then fallbackLoop rows fuel (i + 1) len (some i)
    else fallbackLoop rows fuel (i + 1) maxCells best

/-- The fallback selection at full window. -/
def fallbackIdx (rows : List ARow) : Option Nat :=
  fallbackLoop rows (min rows.length 20) 0 0 none

/-- The overall caption-row selection: the scan, then the fallback. -/
def headerRowIdx (rows : List ARow) : Option Nat :=
  match findCaptionIdx rows with
  | some i => some i
  | none => fallbackIdx rows

/-- ASCII lower-casing of one character (JavaScript `toLowerCase` restricted
to the ASCII range, which covers the marker texts). -/
def jsToLowerChar (c : Char) : Char :=
  if 65 ≤ c.toNat ∧ c.toNat ≤ 90 then Char.ofNat (c.toNat + 32) else c

/-- JavaScript `s.trim().toLowerCase()`. -/
def jsTrimLower (s : String) : String :=
  String.mk ((jsTrimList s.toList).map jsToLowerChar)

/-- Marker set of the claim, in trimmed lower-cased form. -/
def specMarkers : List String := ["no.", "no", "stt", "#", "番号"]

/-- Caption-row qualification as the specification sentence states it:
at least 3 cells, all display texts under 30 characters, at least 3
non-empty, and some trimmed lower-cased text in the marker set. -/
def specCaptionQualifies (rows : List ARow) (i : Nat) : Bool :=
  match rows.get? i with
  | none => false
  | some r =>
    let texts := rowTexts r
    decide (3 ≤ r.cells.length) &&
    texts.all (fun t => decide (t.length < 30)) &&
    decide (3 ≤ (texts.filter (fun t => decide (0 < t.length))).length) &&
    texts.any (fun t => specMarkers.contains (jsTrimLower t))

/-- Caption-row selection as the specification sentence states it: first
qualifying row among the first 30. -/
def specCaptionIdx (rows : List ARow) : Option Nat :=
  (List.range (min rows.length 30)).find? (fun i => specCaptionQualifies rows i)

/-- First-cell integer test of the data-start scan (template-engine.js lines
336-337): `firstCellVal && !isNaN(parseInt(firstCellVal))` over the raw
stored value of the row's first cell. -/
def rowFirstCellInt (rows : List ARow) (i : Nat) : Bool :=
  match rows.get? i with
  | none => false
  | some r =>
    match r.cells.head? with
    | none => false
    | some c => (!(c.value = "")) && jsParseIntOk c.value

/-- Index scan without break value: starting at `i` with `fuel` positions
left, return the first index satisfying `q`, or the first index past the
scanned window. -/
def advanceLoop (q : Nat → Bool) : Nat → Nat → Nat
  | 0, i => i
  | fuel + 1, i => if q i then i else advanceLoop q fuel (i + 1)

/-- The data-start loop (template-engine.js lines 333-339): advance from
position `i` past rows whose first cell does not parse as an integer,
stopping at `rows.length` at the latest (the source's
`while (dataStartIdx < rows.length)` bound). -/
def findDataStartIdx (rows : List ARow) (i : Nat) : Nat :=
  advanceLoop (rowFirstCellInt rows) (rows.length - i) i

/-- The resulting `dataZone.startRowNum` (template-engine.js line 430):
the found row's number, or caption row number + 2 when the scan ran off the
sheet. -/
def dataStartRowNumOf (rows : List ARow) (headerIdx : Nat) : Int :=
  match rows.get? (findDataStartIdx rows (headerIdx + 1)) with
  | some r => r.rowNum
  | none =>
    (match rows.get? headerIdx with
     | some hr => hr.rowNum
     | none => 1) + 2

/-- Concrete failing-input template sheet: title row 1, caption row 5 with
three captions, example data rows 6-8, footer row 9 carrying the total text
and `SUM(C6:C8)` (the spec's own scenario shape). -/
def wsRows3 : List XRow := [
  { r := 1, ht := none, customHeight := false, cells := [
      { colRef := ['A'], rowRef := 1, s := "1", t := some "s", v := some "0", f := none } ] },
  { r := 5, ht := none, customHeight := false, cells := [
      { colRef := ['A'], rowRef := 5, s := "2", t := some "s", v := some "1", f := none },
      { colRef := ['B'], rowRef := 5, s := "2", t := some "s", v := some "2", f := none },
      { colRef := ['C'], rowRef := 5, s := "2", t := some "s", v := some "3", f := none } ] },
  { r := 6, ht := none, customHeight := false, cells := [
      { colRef := ['A'], rowRef := 6, s := "10", t := none, v := some "1", f := none },
      { colRef := ['B'], rowRef := 6, s := "11", t := none, v := some "7", f := none },
      { colRef := ['C'], rowRef := 6, s := "12", t := none, v := some "10", f := none } ] },
  { r := 7, ht := none, customHeight := false, cells := [
      { colRef := ['A'], rowRef := 7, s := "13", t := none, v := some "2", f := none },
      { colRef := ['C'], rowRef := 7, s := "15", t := none, v := some "20", f := none } ] },
  { r := 8, ht := none, customHeight := false, cells := [
      { colRef := ['A'], rowRef := 8, s := "10", t := none, v := some "3", f := none },
      { colRef := ['C'], rowRef := 8, s := "12", t := none, v := some "30", f := none } ] },
  { r := 9, ht := none, customHeight := false, cells := [
      { colRef := ['A'], rowRef := 9, s := "3", t := some "s", v := some "4", f := none },
      { colRef := ['C'], rowRef := 9, s := "4", t := none, v := some "60", f := some "SUM(C6:C8)" } ] } ]

/-- Analysis of the concrete template: data zone rows 6-8 (three example
rows, three style patterns), footer at row 9. -/
def an3 : Analysis :=
  { colCount := 3, dataStartRowNum := 6, dataEndRowNum := 8,
    footerRowNums := [9],
    stylePatterns := [
      { rowNum := 6, ht := none, pattern := [⟨1, "10"⟩, ⟨2, "11"⟩, ⟨3, "12"⟩] },
      { rowNum := 7, ht := none, pattern := [⟨1, "13"⟩, ⟨2, "14"⟩, ⟨3, "15"⟩] },
      { rowNum := 8, ht := none, pattern := [⟨1, "10"⟩, ⟨2, "11"⟩, ⟨3, "12"⟩] } ],
    maxCol := 3 }

/-- The concrete worksheet part. -/
def ws3 : SheetXml :=
  { sheetData := some wsRows3,
    mergeCells := some [⟨['A'], 1, ['C'], 1⟩],
    dimension := some "A1:C9",
    autoFilter := none,
    condFmtScopes := [],
    rest := "untouched-elements" }

/-- The concrete shared-string display texts. -/
def sharedStrings3 : List String := ["Title", "No.", "Item", "Qty", "Total"]

/-- The concrete raw `si` elements. -/
def rawSi3 : List String :=
  ["<si><t>Title</t></si>", "<si><t>No.</t></si>", "<si><t>Item</t></si>",
   "<si><t>Qty</t></si>", "<si><t>Total</t></si>"]

/-- Initial shared-string state for the concrete run. -/
def ssInit3 : SSState :=
  { strings := sharedStrings3, rawSi := rawSi3, idxMap := preIndexMap sharedStrings3 }

/-- Five new data rows - two more than the template's three example rows. -/
def newRows5 : List (List (Option String)) :=
  [[some "1", some "Apple", some "10"],
   [some "2", some "Banana", some "20"],
   [some "3", some "Cherry", some "30"],
   [some "4", some "Dates", some "40"],
   [some "5", some "Eggs", some "50"]]

/-- The surgical rebuild of the concrete template with the five new rows. -/
def rebuildOut3 : SheetXml × SSState :=
  rebuildSheetSurgical ws3 an3 newRows5 ssInit3 []

/-- Rows of the rebuilt sheet. -/
def outRows3 : List XRow := (rebuildOut3.1.sheetData).getD []

/-- C2 (code bug): on the concrete template (data rows 6-8, footer row 9
with `SUM(C6:C8)`) and five new rows, the footer row is renumbered to 11 as
the claim demands, but its formula becomes `SUM(C6:C12)` - the second regex
pass re-shifts the already-rewritten range end `C10` because 10 ≥ the
original footer start 9 - instead of covering the new data span
`[6, 10]` (`SUM(C6:C10)`) as the claim requires. -/
theorem C2_eval_thm :
    (outRows3.map (fun r => (r.r, r.cells.map (fun c => c.f)))).get? 7 =
      some (11, [none, some "SUM(C6:C12)"]) ∧
    "SUM(C6:C12)" ≠ "SUM(C6:C10)" := by decide

/-- C3 (code bug): on the same concrete template and five new rows, the
output's row numbers are `[1, 5, 6, 7, 8, 11, 12, 11]`: the footer
renumbering loop (Step 5) also renumbers the freshly inserted data rows 9
and 10 (their numbers reach the original footer start), so the data zone is
not the claimed consecutive `6..10` - row 9 is absent and row 11 appears
twice. -/
theorem C3_eval_thm :
    outRows3.map (fun r => r.r) = [1, 5, 6, 7, 8, 11, 12, 11] ∧
    (9 : Int) ∉ outRows3.map (fun r => r.r) := by decide

/-- Merge reconciliation rule of the claim (its four cases verbatim: wholly
inside the data zone dropped; start at/after footer start fully shifted;
start before footer start and end at/after it end-shifted; wholly before the
data zone unchanged). -/
def specMergeAdjust (dataStart origDataEnd origFooterStart rowShift : Int)
    (m : MergeRef) : Option MergeRef :=
  if dataStart ≤ m.r1 ∧ m.r2 ≤ origDataEnd then none
  else if origFooterStart ≤ m.r1 then
    some { m with r1 := m.r1 + rowShift, r2 := m.r2 + rowShift }
  else if m.r1 < origFooterStart ∧ origFooterStart ≤ m.r2 then
    some { m with r2 := m.r2 + rowShift }
  else some m

/-- C5 counterexample: the merge `A7:A9` (start inside the data zone 6-8,
end at the footer start 9) is left unchanged by the code, while the claim's
third rule (start before footer start, end at/after it) demands its end row
be shifted to 11. -/
theorem C5_counterexample :
    updateMergeOne 6 8 9 2 ⟨['A'], 7, ['A'], 9⟩ = some ⟨['A'], 7, ['A'], 9⟩ ∧
    specMergeAdjust 6 8 9 2 ⟨['A'], 7, ['A'], 9⟩ = some ⟨['A'], 7, ['A'], 11⟩ ∧
    (some (⟨['A'], 7, ['A'], 9⟩ : MergeRef) ≠ some (⟨['A'], 7, ['A'], 11⟩ : MergeRef)) := by
  decide

/-- C5 (amended): for a well-formed zone layout (`dataStart ≤ origDataEnd <
origFooterStart`) and a well-formed range (`r1 ≤ r2`), the merge
reconciliation drops ranges wholly inside the data zone, shifts both corners
of ranges starting at or after the footer start, shifts only the end of
ranges that start before the DATA ZONE and end at or after the footer start,
and leaves ranges wholly before the data zone unchanged (ranges starting
inside the data zone but ending past it are also left unchanged, which is
where the original claim fails). -/
theorem C5_amended_thm (dataStart origDataEnd origFooterStart rowShift : Int)
    (m : MergeRef) (hds : dataStart ≤ origDataEnd)
    (hfs : origDataEnd < origFooterStart) (hwf : m.r1 ≤ m.r2) :
    (dataStart ≤ m.r1 ∧ m.r2 ≤ origDataEnd →
      updateMergeOne dataStart origDataEnd origFooterStart rowShift m = none) ∧
    (origFooterStart ≤ m.r1 →
      updateMergeOne dataStart origDataEnd origFooterStart rowShift m =
        some { m with r1 := m.r1 + rowShift, r2 := m.r2 + rowShift }) ∧
    (m.r1 < dataStart → origFooterStart ≤ m.r2 →
      updateMergeOne dataStart origDataEnd origFooterStart rowShift m =
        some { m with r2 := m.r2 + rowShift }) ∧
    (m.r2 < dataStart →
      updateMergeOne dataStart origDataEnd origFooterStart rowShift m = some m) ∧
    (dataStart ≤ m.r1 → m.r1 ≤ origDataEnd → origFooterStart ≤ m.r2 →
      updateMergeOne dataStart origDataEnd origFooterStart rowShift m = some m) := by
  refine ⟨?_, ?_, ?_, ?_, ?_⟩
  · intro hc
    simp only [updateMergeOne]
    rw [if_pos ⟨by omega, by omega⟩]
  · intro hc
    simp only [updateMergeOne]
    rw [if_neg (by omega), if_pos (by omega)]
  · intro hc1 hc2
    simp only [updateMergeOne]
    rw [if_neg (by omega), if_neg (by omega), if_pos ⟨by omega, by omega⟩]
  · intro hc
    simp only [updateMergeOne]
    rw [if_neg (by omega), if_neg (by omega), if_neg (by omega)]
  · intro hc1 hc2 hc3
    simp only [updateMergeOne]
    rw [if_neg (by omega), if_neg (by omega), if_neg (by omega)]

/-- Witness for C5 at a concrete footer merge `A9:A10` with shift 2: both
corners move to `A11:A12`. -/
theorem C5_witness :
    updateMergeOne 6 8 9 2 ⟨['A'], 9, ['A'], 10⟩ =
      some ⟨['A'], 11, ['A'], 12⟩ :=
  (C5_amended_thm 6 8 9 2 ⟨['A'], 9, ['A'], 10⟩ (by decide) (by decide)
    (by decide)).2.1 (by decide)

/-- A qualifying position lies within the row list (the test reads the row). -/
theorem captionQualifies_lt (rows : List ARow) (i : Nat)
    (h : captionQualifies rows i = true) : i < rows.length := by
  by_contra hge
  have hnone : rows.get? i = none := List.get?_eq_none.mpr (by omega)
  unfold captionQualifies at h
  rw [hnone] at h
  cases h

/-- The break-style scan returns exactly the first qualifying index of the
scanned window. -/
theorem scanLoop_eq_some (q : Nat → Bool) :
    ∀ fuel i j, scanLoop q fuel i = some j ↔
      (i ≤ j ∧ j < i + fuel ∧ q j = true ∧
       ∀ k, i ≤ k → k < j → q k = false) := by
  intro fuel
  induction fuel with
  | zero =>
    intro i j
    simp only [scanLoop]
    constructor
    · intro h; cases h
    · rintro ⟨h1, h2, _, _⟩; omega
  | succ fuel ih =>
    intro i j
    simp only [scanLoop]
    by_cases hq : q i
    · rw [if_pos hq]
      constructor
      · intro h
        injection h with h'
        subst h'
        exact ⟨le_refl i, by omega, hq, fun k hk1 hk2 => by omega⟩
      · rintro ⟨h1, h2, h3, h4⟩
        by_cases hij : j = i
        · subst hij; rfl
        · have hlt : i < j := by omega
          have hfalse := h4 i (le_refl i) hlt
          rw [hfalse] at hq
          cases hq
    · rw [if_neg hq]
      rw [ih (i + 1) j]
      constructor
      · rintro ⟨h1, h2, h3, h4⟩
        refine ⟨by omega, by omega, h3, fun k hk1 hk2 => ?_⟩
        by_cases hki : k = i
        · subst hki; exact Bool.eq_false_iff.mpr hq
        · exact h4 k (by omega) hk2
      · rintro ⟨h1, h2, h3, h4⟩
        refine ⟨?_, by omega, h3, fun k hk1 hk2 => h4 k (by omega) hk2⟩
        by_cases hij : j = i
        · subst hij; exact absurd h3 hq
        · omega

/-- C6 (amended): the caption-row search scans ALL rows top-to-bottom (the
30-row cap exists only in the fallback, which is capped at 20) and selects
the first row with at least 3 cells, every display text under 30 characters,
at least 3 non-empty texts, at least one text EXACTLY equal (case-sensitive,
untrimmed) to one of "No.", "No", "STT", "#", "番号", and followed by a
later row having at least one cell. -/
theorem C6_amended_thm (rows : List ARow) (i : Nat) :
    findCaptionIdx rows = some i ↔
      (captionQualifies rows i = true ∧
       ∀ j, j < i → captionQualifies rows j = false) := by
  unfold findCaptionIdx
  rw [scanLoop_eq_some]
  constructor
  · rintro ⟨_, _, h3, h4⟩
    exact ⟨h3, fun j hj => h4 j (by omega) hj⟩
  · rintro ⟨h1, h2⟩
    have hi := captionQualifies_lt rows i h1
    exact ⟨by omega, by omega, h1, fun k _ hk => h2 k hk⟩

/-- Concrete counterexample rows for C6: row 0 carries the lower-case marker
"no." (qualifying under the claim's trimmed lower-cased matching), row 1
carries the exact-case marker "No.". -/
def exRows6 : List ARow := [
  ⟨1, [⟨"no.", "no."⟩, ⟨"a", "a"⟩, ⟨"b", "b"⟩]⟩,
  ⟨2, [⟨"No.", "No."⟩, ⟨"b", "b"⟩, ⟨"c", "c"⟩, ⟨"d", "d"⟩]⟩,
  ⟨3, [⟨"1", "1"⟩]⟩ ]

/-- C6 counterexample: on `exRows6` the claim's selection rule picks row 0
(its "no." matches the marker set after trimming and lower-casing), but the
code picks row 1, because its marker comparison is exact and case-sensitive
("no." is not in the code's set). -/
theorem C6_counterexample :
    specCaptionIdx exRows6 = some 0 ∧
    headerRowIdx exRows6 = some 1 ∧
    (some (1 : Nat) ≠ some (0 : Nat)) := by decide

/-- Witness for C6 at `exRows6`: the code's scan selects index 1. -/
theorem C6_witness : findCaptionIdx exRows6 = some 1 :=
  (C6_amended_thm exRows6 1).mpr
    ⟨by decide, by intro j hj; interval_cases j; decide⟩

/-- The advance-style scan stops at the first satisfying index of the
scanned window (or just past it). -/
theorem advanceLoop_spec (q : Nat → Bool) :
    ∀ fuel i, i ≤ advanceLoop q fuel i ∧ advanceLoop q fuel i ≤ i + fuel ∧
      (∀ k, i ≤ k → k < advanceLoop q fuel i → q k = false) ∧
      (advanceLoop q fuel i < i + fuel → q (advanceLoop q fuel i) = true) := by
  intro fuel
  induction fuel with
  | zero =>
    intro i
    simp only [advanceLoop]
    exact ⟨le_refl i, by omega, fun k hk1 hk2 => by omega,
      fun hcon => absurd hcon (by omega)⟩
  | succ fuel ih =>
    intro i
    simp only [advanceLoop]
    by_cases hq : q i
    · rw [if_pos hq]
      exact ⟨le_refl i, by omega, fun k hk1 hk2 => by omega, fun _ => hq⟩
    · rw [if_neg hq]
      obtain ⟨a1, a2, a3, a4⟩ := ih (i + 1)
      refine ⟨by omega, by omega, fun k hk1 hk2 => ?_, fun h => a4 (by omega)⟩
      by_cases hki : k = i
      · subst hki; exact Bool.eq_false_iff.mpr hq
      · exact a3 k (by omega) hk2

/-- C7: scanning forward from the row after the caption row (index `h`),
every skipped row's first cell does not parse as an integer, the found row's
first cell does, and `dataZone.startRow` is that row's row number
("parses as an integer" being the source's `parseInt` test over the first
cell's raw stored value). -/
theorem C7_thm (rows : List ARow) (h : Nat) :
    (∀ j, h + 1 ≤ j → j < findDataStartIdx rows (h + 1) →
      rowFirstCellInt rows j = false) ∧
    (findDataStartIdx rows (h + 1) < rows.length →
      rowFirstCellInt rows (findDataStartIdx rows (h + 1)) = true) ∧
    (∀ r, rows.get? (findDataStartIdx rows (h + 1)) = some r →
      dataStartRowNumOf rows h = r.rowNum) := by
  obtain ⟨a1, a2, a3, a4⟩ :=
    advanceLoop_spec (rowFirstCellInt rows) (rows.length - (h + 1)) (h + 1)
  refine ⟨?_, ?_, ?_⟩
  · intro j hj1 hj2
    exact a3 j hj1 hj2
  · intro hlt
    exact a4 (by unfold findDataStartIdx at hlt; omega)
  · intro r hr
    unfold dataStartRowNumOf
    rw [hr]

/-- Concrete rows for C7: caption at index 0, a textual sub-caption row at
index 1 (skipped), the first integer-first-cell row at index 2 (row 3). -/
def exRows7 : List ARow := [
  ⟨1, [⟨"1", "No."⟩, ⟨"2", "Item"⟩, ⟨"3", "Qty"⟩]⟩,
  ⟨2, [⟨"Subtitle", "Subtitle"⟩]⟩,
  ⟨3, [⟨"1", "1"⟩, ⟨"5", "Apple"⟩]⟩,
  ⟨4, [⟨"2", "2"⟩]⟩ ]

/-- Witness for C7 at `exRows7`: the scan from index 1 stops at index 2,
whose first cell parses as an integer, and the data zone starts at its row
number 3. -/
theorem C7_witness :
    rowFirstCellInt exRows7 (findDataStartIdx exRows7 (0 + 1)) = true ∧
    dataStartRowNumOf exRows7 0 = 3 :=
  ⟨(C7_thm exRows7 0).2.1 (by decide),
   (C7_thm exRows7 0).2.2 ⟨3, [⟨"1", "1"⟩, ⟨"5", "Apple"⟩]⟩ (by decide)⟩

/-- One lookup-or-insert only ever appends to the raw entry list. -/
theorem getOrAddSS_rawSi (ss : SSState) (t : String) :
    ∃ b, (getOrAddSS ss t).2.rawSi = ss.rawSi ++ b := by
  unfold getOrAddSS
  rcases hm : ss.idxMap t with _ | i
  · rcases hios : ss.strings.indexOf? t with _ | i
    · exact ⟨["<si xmlns=\"" ++ xlsxNs ++ "\"><t>" ++ escapeXml t ++ "</t></si>"],
        by simp [hm, hios]⟩
    · exact ⟨[], by simp [hm, hios]⟩
  · exact ⟨[], by simp [hm]⟩

/-- One lookup-or-insert only ever appends to the display-text list. -/
theorem getOrAddSS_strings (ss : SSState) (t : String) :
    ∃ a, (getOrAddSS ss t).2.strings = ss.strings ++ a := by
  unfold getOrAddSS
  rcases hm : ss.idxMap t with _ | i
  · rcases hios : ss.strings.indexOf? t with _ | i
    · exact ⟨[t], by simp [hm, hios]⟩
    · exact ⟨[], by simp [hm, hios]⟩
  · exact ⟨[], by simp [hm]⟩

/-- A header-cell value update only appends raw entries. -/
theorem updateCellValue_rawSi (c : XCell) (nv : String) (ss : SSState) :
    ∃ b, (updateCellValue c nv ss).2.rawSi = ss.rawSi ++ b := by
  unfold updateCellValue
  by_cases hn : isNumeric nv
  · rw [if_pos hn]; exact ⟨[], by simp⟩
  · rw [if_neg hn]
    exact getOrAddSS_rawSi ss nv

/-- The cell loop of Step 1 only appends raw entries. -/
theorem updateRowCells_rawSi (cells : List XCell) (hfu : HeaderUpdates) :
    ∀ ss : SSState, ∃ b, (updateRowCells cells hfu ss).2.rawSi = ss.rawSi ++ b := by
  induction cells with
  | nil => intro ss; exact ⟨[], by simp [updateRowCells]⟩
  | cons c rest ih =>
    intro ss
    unfold updateRowCells
    rcases hl : lookupUpdate hfu (c.colRef, c.rowRef) with _ | nv
    · obtain ⟨b, hb⟩ := ih ss
      exact ⟨b, hb⟩
    · obtain ⟨b1, hb1⟩ := updateCellValue_rawSi c nv ss
      obtain ⟨b2, hb2⟩ := ih (updateCellValue c nv ss).2
      exact ⟨b1 ++ b2, by rw [hb2, hb1, List.append_assoc]⟩

/-- Step 1 only appends raw entries. -/
theorem applyHeaderUpdates_rawSi (rows : List XRow) (dataStart : Int)
    (hfu : HeaderUpdates) :
    ∀ ss : SSState,
      ∃ b, (applyHeaderUpdates rows dataStart hfu ss).2.rawSi = ss.rawSi ++ b := by
  induction rows with
  | nil => intro ss; exact ⟨[], by simp [applyHeaderUpdates]⟩
  | cons r rest ih =>
    intro ss
    unfold applyHeaderUpdates
    by_cases hge : r.r ≥ dataStart
    · rw [if_pos hge]; exact ⟨[], by simp⟩
    · rw [if_neg hge]
      obtain ⟨b1, hb1⟩ := updateRowCells_rawSi r.cells hfu ss
      obtain ⟨b2, hb2⟩ := ih (updateRowCells r.cells hfu ss).2
      exact ⟨b1 ++ b2, by rw [hb2, hb1, List.append_assoc]⟩

/-- Building one new cell only appends raw entries. -/
theorem buildNewCell_rawSi (pattern : StylePattern) (colNum : Nat)
    (rowNum : Int) (cellValue : String) (ss : SSState) :
    ∃ b, (buildNewCell pattern colNum rowNum cellValue ss).2.rawSi =
      ss.rawSi ++ b := by
  unfold buildNewCell
  by_cases h1 : cellValue = ""
  · rw [if_pos h1]; exact ⟨[], by simp⟩
  · rw [if_neg h1]
    by_cases h2 : isNumeric cellValue
    · rw [if_pos h2]; exact ⟨[], by simp⟩
    · rw [if_neg h2]
      exact getOrAddSS_rawSi ss cellValue

/-- The column loop of Step 3 only appends raw entries. -/
theorem buildNewCells_rawSi (pattern : StylePattern) (cols : List Nat)
    (rowNum : Int) (dataRow : List (Option String)) :
    ∀ ss : SSState,
      ∃ b, (buildNewCells pattern cols rowNum dataRow ss).2.rawSi =
        ss.rawSi ++ b := by
  induction cols with
  | nil => intro ss; exact ⟨[], by simp [buildNewCells]⟩
  | cons colNum rest ih =>
    intro ss
    unfold buildNewCells
    obtain ⟨b1, hb1⟩ := buildNewCell_rawSi pattern colNum rowNum
      (cellValueAt dataRow (colNum - 1)) ss
    obtain ⟨b2, hb2⟩ := ih
      (buildNewCell pattern colNum rowNum (cellValueAt dataRow (colNum - 1)) ss).2
    exact ⟨b1 ++ b2, by rw [hb2, hb1, List.append_assoc]⟩

/-- The row loop of Step 3 only appends raw entries. -/
theorem buildNewRows_rawSi (newDataRows : List (List (Option String)))
    (stylePatterns : List StylePattern) (patternCycleLen colCount : Nat) :
    ∀ (i : Nat) (currentRowNum : Int) (ss : SSState),
      ∃ b, (buildNewRows newDataRows stylePatterns patternCycleLen colCount
        i currentRowNum ss).2.rawSi = ss.rawSi ++ b := by
  induction newDataRows with
  | nil => intro i cr ss; exact ⟨[], by simp [buildNewRows]⟩
  | cons dataRow rest ih =>
    intro i cr ss
    unfold buildNewRows
    obtain ⟨b1, hb1⟩ := buildNewCells_rawSi ((stylePatterns.get?
        (min (i % patternCycleLen) (stylePatterns.length - 1))).getD
        { rowNum := 0, ht := none, pattern := [] })
        ((List.range colCount).map (· + 1)) cr dataRow ss
    obtain ⟨b2, hb2⟩ := ih (i + 1) (cr + 1)
      (buildNewCells ((stylePatterns.get?
        (min (i % patternCycleLen) (stylePatterns.length - 1))).getD
        { rowNum := 0, ht := none, pattern := [] })
        ((List.range colCount).map (· + 1)) cr dataRow ss).2
    exact ⟨b1 ++ b2, by rw [hb2, hb1, List.append_assoc]⟩

/-- The whole surgical rebuild only appends raw entries. -/
theorem rebuildSheetSurgical_rawSi (ws : SheetXml) (an : Analysis)
    (newDataRows : List (List (Option String))) (ss : SSState)
    (hfu : HeaderUpdates) :
    ∃ b, (rebuildSheetSurgical ws an newDataRows ss hfu).2.rawSi =
      ss.rawSi ++ b := by
  unfold rebuildSheetSurgical
  rcases hsd : ws.sheetData with _ | rows0
  · exact ⟨[], by simp⟩
  · simp only
    by_cases hpat : an.stylePatterns.isEmpty
    · rw [if_pos hpat]; exact ⟨[], by simp⟩
    · rw [if_neg hpat]
      have hb1 : ∃ b, (if hfu.isEmpty then (rows0, ss)
          else applyHeaderUpdates rows0 an.dataStartRowNum hfu ss).2.rawSi =
          ss.rawSi ++ b := by
        by_cases hh : hfu.isEmpty
        · rw [if_pos hh]; exact ⟨[], by simp⟩
        · rw [if_neg hh]
          exact applyHeaderUpdates_rawSi rows0 an.dataStartRowNum hfu ss
      obtain ⟨b1, hb1'⟩ := hb1
      obtain ⟨b2, hb2⟩ := buildNewRows_rawSi newDataRows an.stylePatterns
        (if an.stylePatterns.length ≥ 2 then 2 else 1) an.colCount 0
        an.dataStartRowNum
        (if hfu.isEmpty then (rows0, ss)
          else applyHeaderUpdates rows0 an.dataStartRowNum hfu ss).2
      exact ⟨b1 ++ b2, by rw [hb2, hb1', List.append_assoc]⟩

/-- In any successful generation, the shared-string part written to the
output is exactly the rebuilt raw entry list. -/
theorem generate_sst_part (td : TemplateData) (g : GenOptions)
    (out : String → Option PartVal) (ws : SheetXml)
    (hp : td.parts td.firstSheetPath = some (PartVal.sheet ws))
    (h1 : generateFromTemplate td g = some out) :
    out ssPathName = some (PartVal.sst
      (rebuildSheetSurgical ws td.analysis g.rows (initSSState td)
        g.headerFieldUpdates).2.rawSi) := by
  unfold generateFromTemplate at h1
  rw [hp] at h1
  simp only at h1
  rcases hn : g.sheetName with _ | nm
  · rw [hn] at h1
    simp only at h1
    injection h1 with hout
    rw [← hout]
    simp [setPart, buildSharedStringsXmlPreserved]
  · rw [hn] at h1
    simp only at h1
    split at h1
    · injection h1 with hout
      rw [← hout]
      have hne : ssPathName ≠ wbPathName := by decide
      simp [setPart, buildSharedStringsXmlPreserved, hne]
    · exact Option.noConfusion h1

/-- C4: in every successful generation, the emitted shared-string table is
the original raw entries, unchanged, at their original indices and in their
original order, followed by the newly appended plain-text entries; hence
every index below the original count resolves to the same entry (and so the
same display text) as in the input. -/
theorem C4_thm (td : TemplateData) (g : GenOptions)
    (out : String → Option PartVal) (l : List String) (ws : SheetXml)
    (hp : td.parts td.firstSheetPath = some (PartVal.sheet ws))
    (h1 : generateFromTemplate td g = some out)
    (h2 : out ssPathName = some (PartVal.sst l)) :
    (∃ added, l = td.rawSiElements ++ added) ∧
    ∀ i, i < td.rawSiElements.length → l[i]? = td.rawSiElements[i]? := by
  have hsst := generate_sst_part td g out ws hp h1
  rw [h2] at hsst
  injection hsst with hval
  injection hval with hl
  obtain ⟨b, hb⟩ := rebuildSheetSurgical_rawSi ws td.analysis g.rows
    (initSSState td) g.headerFieldUpdates
  have hinit : (initSSState td).rawSi = td.rawSiElements := rfl
  rw [hinit] at hb
  have hlb : l = td.rawSiElements ++ b := by rw [hl, hb]
  refine ⟨⟨b, hlb⟩, fun i hi => ?_⟩
  rw [hlb]
  exact List.getElem?_append_left hi

/-- With no `sheetData` element the rebuild returns its input unchanged
(the source's `if (!sheetData) return origXml`). -/
theorem rebuild_id_of_noSheetData (ws : SheetXml) (an : Analysis)
    (rows : List (List (Option String))) (ss : SSState) (hfu : HeaderUpdates)
    (h : ws.sheetData = none) :
    rebuildSheetSurgical ws an rows ss hfu = (ws, ss) := by
  unfold rebuildSheetSurgical
  rw [h]

/-- With no sampled style patterns the rebuild returns its input unchanged
(the source's `if (stylePatterns.length === 0) return origXml`). -/
theorem rebuild_id_of_noPatterns (ws : SheetXml) (an : Analysis)
    (rows : List (List (Option String))) (ss : SSState) (hfu : HeaderUpdates)
    (h : an.stylePatterns = []) :
    rebuildSheetSurgical ws an rows ss hfu = (ws, ss) := by
  unfold rebuildSheetSurgical
  rcases hsd : ws.sheetData with _ | rows0
  · rfl
  · simp [h]

/-- C1 (amended): for a template whose analysis sampled zero style patterns
(zero example rows), `generateFromTemplate` does NOT fail: it succeeds and
emits a document whose worksheet part is identical to the template's
original worksheet (no `NoStylePattern` failure exists in the engine). -/
theorem C1_amended_thm (td : TemplateData)
    (rows : List (List (Option String))) (hfu : HeaderUpdates) (ws : SheetXml)
    (hpat : td.analysis.stylePatterns = [])
    (hsheet : td.parts td.firstSheetPath = some (PartVal.sheet ws))
    (hne : td.firstSheetPath ≠ ssPathName) :
    ∃ out, generateFromTemplate td ⟨rows, none, hfu⟩ = some out ∧
      out td.firstSheetPath = some (PartVal.sheet ws) := by
  unfold generateFromTemplate
  rw [hsheet]
  simp only
  refine ⟨_, rfl, ?_⟩
  rw [rebuild_id_of_noPatterns ws td.analysis rows (initSSState td) hfu hpat]
  simp [setPart, hne]

/-- C10: for a template whose worksheet part has no `sheetData` element,
`generateFromTemplate` succeeds and emits a document whose worksheet part
equals the template's, instead of raising any error. -/
theorem C10_thm (td : TemplateData)
    (rows : List (List (Option String))) (hfu : HeaderUpdates) (ws : SheetXml)
    (hsd : ws.sheetData = none)
    (hsheet : td.parts td.firstSheetPath = some (PartVal.sheet ws))
    (hne : td.firstSheetPath ≠ ssPathName) :
    ∃ out, generateFromTemplate td ⟨rows, none, hfu⟩ = some out ∧
      out td.firstSheetPath = some (PartVal.sheet ws) := by
  unfold generateFromTemplate
  rw [hsheet]
  simp only
  refine ⟨_, rfl, ?_⟩
  rw [rebuild_id_of_noSheetData ws td.analysis rows (initSSState td) hfu hsd]
  simp [setPart, hne]

/-- C8 (amended): every successful generation writes AT MOST the analyzed
worksheet part, the shared-string part and the workbook part; every other
part of the output container is identical to the input's. -/
theorem C8_amended_thm (td : TemplateData) (g : GenOptions)
    (out : String → Option PartVal) (p : String)
    (h1 : generateFromTemplate td g = some out)
    (hp1 : p ≠ td.firstSheetPath) (hp2 : p ≠ ssPathName)
    (hp3 : p ≠ wbPathName) :
    out p = td.parts p := by
  unfold generateFromTemplate at h1
  rcases hp : td.parts td.firstSheetPath with _ | pv
  · rw [hp] at h1; exact Option.noConfusion h1
  · rw [hp] at h1
    cases pv with
    | sst e => simp only at h1; exact Option.noConfusion h1
    | text s => simp only at h1; exact Option.noConfusion h1
    | sheet ws =>
      simp only at h1
      rcases hn : g.sheetName with _ | nm
      · rw [hn] at h1
        simp only at h1
        injection h1 with hout
        rw [← hout]
        simp [setPart, hp1, hp2]
      · rw [hn] at h1
        simp only at h1
        split at h1
        · injection h1 with hout
          rw [← hout]
          simp [setPart, hp1, hp2, hp3]
        · exact Option.noConfusion h1

/-- Worksheet of a template whose analysis sampled zero example rows. -/
def ws1 : SheetXml :=
  { sheetData := some [
      { r := 1, ht := none, customHeight := false, cells := [
          { colRef := ['A'], rowRef := 1, s := "0", t := some "s",
            v := some "0", f := none } ] } ],
    mergeCells := none, dimension := some "A1:C9", autoFilter := none,
    condFmtScopes := [], rest := "template-one-rest" }

/-- Analysis with an empty data zone: zero example rows, zero style
patterns (the shape produced for a template with no data rows between
caption and footer). -/
def an1 : Analysis :=
  { colCount := 3, dataStartRowNum := 7, dataEndRowNum := 6,
    footerRowNums := [9], stylePatterns := [], maxCol := 3 }

/-- Concrete template container with zero style patterns. -/
def td1 : TemplateData :=
  { parts := fun p =>
      if p = "xl/worksheets/sheet1.xml" then some (PartVal.sheet ws1)
      else if p = "xl/sharedStrings.xml" then
        some (PartVal.sst ["<si><t>A</t></si>"])
      else if p = "xl/workbook.xml" then
        some (PartVal.text "<workbook><sheet name=\"S1\"/></workbook>")
      else if p = "xl/styles.xml" then some (PartVal.text "styles-one")
      else none,
    firstSheetPath := "xl/worksheets/sheet1.xml",
    analysis := an1,
    sharedStrings := ["A"],
    rawSiElements := ["<si><t>A</t></si>"] }

/-- Generation options used against `td1`. -/
def g1 : GenOptions :=
  { rows := [[some "1", some "X", some "2"]], sheetName := none,
    headerFieldUpdates := [] }

/-- C1 counterexample: on the concrete zero-example-row template `td1`,
`generateFromTemplate` does not fail - it emits a document, and that
document's worksheet part is the template's original worksheet, exactly
what the claim says cannot happen. -/
theorem C1_counterexample :
    (generateFromTemplate td1 g1).isSome = true ∧
    (generateFromTemplate td1 g1).bind (fun m => m td1.firstSheetPath) =
      some (PartVal.sheet ws1) := by decide

/-- Witness for the amended C1 at `td1`. -/
theorem C1_witness :
    ∃ out, generateFromTemplate td1 ⟨[[some "1", some "X", some "2"]], none, []⟩ =
        some out ∧
      out td1.firstSheetPath = some (PartVal.sheet ws1) :=
  C1_amended_thm td1 [[some "1", some "X", some "2"]] [] ws1 (by decide)
    (by decide) (by decide)

/-- Worksheet part without a `sheetData` element. -/
def ws10 : SheetXml :=
  { sheetData := none, mergeCells := none, dimension := some "A1:C9",
    autoFilter := none, condFmtScopes := [], rest := "template-ten-rest" }

/-- Concrete template container whose worksheet has no `sheetData`. -/
def td10 : TemplateData :=
  { parts := fun p =>
      if p = "xl/worksheets/sheet1.xml" then some (PartVal.sheet ws10)
      else if p = "xl/sharedStrings.xml" then some (PartVal.sst rawSi3)
      else if p = "xl/workbook.xml" then
        some (PartVal.text "<workbook><sheet name=\"S\"/></workbook>")
      else none,
    firstSheetPath := "xl/worksheets/sheet1.xml",
    analysis := an3,
    sharedStrings := sharedStrings3,
    rawSiElements := rawSi3 }

/-- Witness for C10 at `td10`. -/
theorem C10_witness :
    ∃ out, generateFromTemplate td10 ⟨[[some "9"]], none, []⟩ = some out ∧
      out td10.firstSheetPath = some (PartVal.sheet ws10) :=
  C10_thm td10 [[some "9"]] [] ws10 rfl (by decide) (by decide)

/-- Concrete template container for the C8 counterexample: its worksheet has
no `sheetData` (so the rewrite passes it through) and its shared-string part
already holds exactly what the generation will write back. -/
def td8 : TemplateData :=
  { parts := fun p =>
      if p = "xl/worksheets/sheet1.xml" then some (PartVal.sheet ws10)
      else if p = "xl/sharedStrings.xml" then some (PartVal.sst rawSi3)
      else if p = "xl/workbook.xml" then
        some (PartVal.text "<workbook><sheet name=\"S\"/></workbook>")
      else if p = "xl/styles.xml" then some (PartVal.text "styles-eight")
      else if p = "xl/media/image1.png" then some (PartVal.text "image-bytes")
      else none,
    firstSheetPath := "xl/worksheets/sheet1.xml",
    analysis := an3,
    sharedStrings := sharedStrings3,
    rawSiElements := rawSi3 }

/-- Generation options used against `td8`. -/
def g8 : GenOptions :=
  { rows := [[some "1", some "Zed", some "3"]], sheetName := none,
    headerFieldUpdates := [] }

/-- C8 counterexample: a successful generation against `td8` changes NEITHER
the worksheet part NOR the shared-string part (both are written back with
their input values), so the output does not "differ from the input container
in exactly two parts" as the claim states - here it differs in none. -/
theorem C8_counterexample :
    (generateFromTemplate td8 g8).isSome = true ∧
    (generateFromTemplate td8 g8).bind (fun m => m td8.firstSheetPath) =
      td8.parts td8.firstSheetPath ∧
    (generateFromTemplate td8 g8).bind (fun m => m ssPathName) =
      td8.parts ssPathName := by decide

/-- The output container of the `td8` generation. -/
def out8 : String → Option PartVal :=
  (generateFromTemplate td8 g8).getD td8.parts

/-- Witness for the amended C8 at `td8`: an untouched part (the style part)
is identical in the output. -/
theorem C8_witness : out8 "xl/styles.xml" = td8.parts "xl/styles.xml" :=
  C8_amended_thm td8 g8 out8 "xl/styles.xml" rfl (by decide) (by decide)
    (by decide)

/-- Concrete full template container for the C4 witness (the `ws3`/`an3`
template with its shared strings). -/
def tdC4 : TemplateData :=
  { parts := fun p =>
      if p = "xl/worksheets/sheet1.xml" then some (PartVal.sheet ws3)
      else if p = "xl/sharedStrings.xml" then some (PartVal.sst rawSi3)
      else if p = "xl/workbook.xml" then
        some (PartVal.text "<workbook><sheet name=\"S\"/></workbook>")
      else none,
    firstSheetPath := "xl/worksheets/sheet1.xml",
    analysis := an3,
    sharedStrings := sharedStrings3,
    rawSiElements := rawSi3 }

/-- Generation options used against `tdC4`: the five new rows. -/
def gC4 : GenOptions :=
  { rows := newRows5, sheetName := none, headerFieldUpdates := [] }

/-- The output container of the `tdC4` generation. -/
def outC4 : String → Option PartVal :=
  (generateFromTemplate tdC4 gC4).getD tdC4.parts

/-- The shared-string entry list of the `tdC4` output. -/
def lC4 : List String :=
  match outC4 ssPathName with
  | some (PartVal.sst l) => l
  | _ => []

/-- Witness for C4 at `tdC4`: the output shared-string part extends the
original entries, index-stably. -/
theorem C4_witness :
    (∃ added, lC4 = tdC4.rawSiElements ++ added) ∧
    ∀ i, i < tdC4.rawSiElements.length → lC4[i]? = tdC4.rawSiElements[i]? :=
  C4_thm tdC4 gC4 outC4 lC4 ws3 (by decide) rfl rfl
